import Mathlib

set_option linter.unusedVariables false

/-! Shallow embedding of the FSQ Placemaker Telegram bot.

Main sources embedded here:
- src/placemaker_bot/telegram_handlers.py (conversation handlers),
- src/placemaker_bot/models.py (pydantic models),
- src/bot.py (legacy variant; deterministic price-filter handler).

Python dicts are modelled as insertion-ordered association lists
(`List (String × PyVal)`), Python floats/ints as rationals, and fallible
code as `Except`/`Option`. Each handler is embedded as a pure function
from its inputs (message text, parsed LLM output, prior per-user data) to
the updated data and the returned conversation-state constant. -/

/-- A Python value as stored in the bot's dict-shaped records: `None`,
strings, booleans, numbers (ints and floats, embedded as rationals) and
lists. -/
inductive PyVal where
  | vnone : PyVal
  | vstr (s : String) : PyVal
  | vbool (b : Bool) : PyVal
  | vnum (q : ℚ) : PyVal
  | vlist (xs : List PyVal) : PyVal

/-- A Python dict with string keys, as an insertion-ordered association
list (Python dicts preserve insertion order and have unique keys). -/
abbrev PyDict := List (String × PyVal)

/-- Dict lookup: the value at the first occurrence of the key. -/
def getVal {α : Type} : List (String × α) → String → Option α
  | [], _ => none
  | kv :: rest, k => if kv.1 = k then some kv.2 else getVal rest k

/-- Dict assignment `d[k] = v`: updates the existing entry in place, or
appends a new entry at the end (Python insertion-order semantics). -/
def dictSet {α : Type} : List (String × α) → String → α → List (String × α)
  | [], k, v => [(k, v)]
  | kv :: rest, k, v => if kv.1 = k then (k, v) :: rest else kv :: dictSet rest k v

/-- Dict removal `d.pop(k, None)`: removes the first entry with the key. -/
def eraseKey {α : Type} : List (String × α) → String → List (String × α)
  | [], _ => []
  | kv :: rest, k => if kv.1 = k then rest else kv :: eraseKey rest k

/-- Python truthiness of a value (`bool(v)`), restricted to the value
shapes the bot stores. -/
def pyTruthy : PyVal → Bool
  | PyVal.vnone => false
  | PyVal.vstr s => decide (s ≠ "")
  | PyVal.vbool b => b
  | PyVal.vnum q => decide (q ≠ 0)
  | PyVal.vlist xs => !xs.isEmpty

/-- Characters treated as whitespace by Python's `str.strip()`. -/
def isPySpace (c : Char) : Bool :=
  c = ' ' ∨ c = '\t' ∨ c = '\n' ∨ c = '\r' ∨ c = Char.ofNat 11 ∨ c = Char.ofNat 12

/-- Drop characters satisfying `p` from both ends of a character list. -/
def trimChars (p : Char → Bool) (l : List Char) : List Char :=
  ((l.dropWhile p).reverse.dropWhile p).reverse

/-- Python `str.strip()` (whitespace from both ends). -/
def pyStrip (s : String) : String :=
  String.mk (trimChars isPySpace s.data)

/-- Python `str.lower()` (ASCII case folding; the bot only compares ASCII
keywords such as "skip" and "open 24/7"). -/
def pyLower (s : String) : String :=
  String.mk (s.data.map Char.toLower)

/-- `needle in hay` on character lists (Python substring test). -/
def listHasSub (needle hay : List Char) : Bool :=
  hay.tails.any (fun t => needle.isPrefixOf t)

/-- Python `needle in hay` substring test on strings. -/
def strHasSub (needle hay : String) : Bool :=
  listHasSub needle.data hay.data

/-- Python `",".join(l)` for a list of strings. -/
def joinComma : List String → String
  | [] => ""
  | [s] => s
  | s :: rest => s ++ "," ++ joinComma rest

/-! Conversation-state constants, from the `range(18)` tuple unpacking in
src/placemaker_bot/telegram_handlers.py (lines 61-80), plus
`ConversationHandler.END = -1` from python-telegram-bot. -/

/-- State `LOCATION` (0). -/
def LOCATION : Int := 0

/-- State `LOCATION_CHOICE` (1). -/
def LOCATION_CHOICE : Int := 1

/-- State `QUERY` (2). -/
def QUERY : Int := 2

/-- State `REFINE` (3). -/
def REFINE : Int := 3

/-- State `NAME` (4). -/
def NAME : Int := 4

/-- State `CATEGORY` (5). -/
def CATEGORY : Int := 5

/-- State `ADDRESS` (6). -/
def ADDRESS : Int := 6

/-- State `COORDINATES` (7). -/
def COORDINATES : Int := 7

/-- State `COORDINATES_MANUAL` (8). -/
def COORDINATES_MANUAL : Int := 8

/-- State `CONTACT` (9). -/
def CONTACT : Int := 9

/-- State `HOURS` (10). -/
def HOURS : Int := 10

/-- State `CUSTOM_HOURS` (11). -/
def CUSTOM_HOURS : Int := 11

/-- State `ATTRIBUTES` (12). -/
def ATTRIBUTES : Int := 12

/-- State `CHAIN_STATUS` (13). -/
def CHAIN_STATUS : Int := 13

/-- State `CHAIN_DETAILS` (14). -/
def CHAIN_DETAILS : Int := 14

/-- State `PRIVATE_PLACE` (15). -/
def PRIVATE_PLACE : Int := 15

/-- State `PHOTOS` (16). -/
def PHOTOS : Int := 16

/-- State `CONFIRM` (17). -/
def CONFIRM : Int := 17

/-- `ConversationHandler.END` (-1): the conversation terminates. -/
def ENDSTATE : Int := -1

/-! The QUERY-state merge (query_handler, telegram_handlers.py lines
722-741). `parse_search_query_gpt(...).model_dump()` is a dict of all
fields of `FoursquareSearchParams`; the handler copies the accumulated
params and overwrites each key whose dumped value is neither `None` nor
the empty string. -/

/-- The filter applied per dumped field in `query_handler`:
`v is not None and v != ""`. -/
def keepField (kv : String × PyVal) : Bool :=
  match kv.2 with
  | PyVal.vnone => false
  | PyVal.vstr s => decide (s ≠ "")
  | _ => true

/-- One QUERY-turn update of the accumulated `search_params`
(telegram_handlers.py lines 735-739): copy the current params, then for
each dumped field whose value is neither `None` nor `""`, assign it. -/
def queryMergeStep (cur : PyDict) (dump : PyDict) : PyDict :=
  dump.foldl (fun p kv => if keepField kv then dictSet p kv.1 kv.2 else p) cur

/-- Accumulated `search_params` after a sequence of QUERY-state turns,
starting from the empty dict set by `location_handler`. -/
def runQueryTurns (turns : List PyDict) : PyDict :=
  turns.foldl queryMergeStep []

/-- Modelled from the spec's words (for comparison with `queryMergeStep`):
restrict a turn's parse to its non-null/non-empty fields, then overwrite
them onto the accumulated map. -/
def specTurnMerge (p : PyDict) (dump : PyDict) : PyDict :=
  (dump.filter keepField).foldl (fun p kv => dictSet p kv.1 kv.2) p

/-! Python numeric and string coercions used by `_sanitize_suggest_params`
and `coordinates_manual_handler`. -/

/-- Value of a list of decimal digit characters. -/
def natOfDigits (l : List Char) : Nat :=
  l.foldl (fun a c => 10 * a + (c.toNat - 48)) 0

/-- Python `float(s)` on a decimal string literal: optional surrounding
whitespace, optional sign, digits with an optional fractional part.
(Python additionally accepts exponent/inf/nan forms; the bot only feeds
`float()` values coming from JSON numbers or plain decimal text.) -/
def parseDecQ (s : String) : Option ℚ :=
  let t := trimChars isPySpace s.data
  let core : Bool × List Char :=
    match t with
    | '-' :: r => (true, r)
    | '+' :: r => (false, r)
    | r => (false, r)
  let intPart := core.2.takeWhile Char.isDigit
  let rest := core.2.dropWhile Char.isDigit
  let mag : Option ℚ :=
    match rest with
    | [] => if intPart.isEmpty then none else some ((natOfDigits intPart : ℚ))
    | '.' :: frac =>
      if frac.all Char.isDigit && !(intPart.isEmpty && frac.isEmpty) then
        some ((natOfDigits intPart : ℚ) + (natOfDigits frac : ℚ) / ((10 : ℚ) ^ frac.length))
      else none
    | _ => none
  mag.map (fun m => if core.1 then -m else m)

/-- Python `float(v)`: numbers pass through, booleans become 0/1, strings
are parsed, `None` and lists raise (`none`). -/
def pyFloat : PyVal → Option ℚ
  | PyVal.vnum q => some q
  | PyVal.vbool b => some (if b then 1 else 0)
  | PyVal.vstr s => parseDecQ s
  | _ => none

/-- Python `str(v)`. The bot only applies this to string values (the
`hours` and `categories` parameters are strings by construction);
the renderings of the non-string shapes are simplified stand-ins. -/
def pyStr : PyVal → String
  | PyVal.vstr s => s
  | PyVal.vbool true => "True"
  | PyVal.vbool false => "False"
  | PyVal.vnone => "None"
  | PyVal.vnum q => toString q.num
  | PyVal.vlist _ => "[]"

/-- `v is None` test. -/
def pyIsNone : PyVal → Bool
  | PyVal.vnone => true
  | _ => false

/-- Python truncating `int(q)` (rounds toward zero). -/
def pyIntTrunc (q : ℚ) : Int :=
  if q ≥ 0 then q.floor else -((-q).floor)

/-- `s.split(',')` helper on character lists (accumulator holds the
current token reversed). -/
def splitCommaAux : List Char → List Char → List (List Char)
  | [], acc => [acc.reverse]
  | c :: rest, acc =>
    if c = ',' then acc.reverse :: splitCommaAux rest [] else splitCommaAux rest (c :: acc)

/-- Python `s.split(',')`. -/
def splitComma (s : String) : List String :=
  (splitCommaAux s.data []).map String.mk

/-- `pre` is a prefix of `s` (Python `s.startswith(pre)`). -/
def strStarts (pre s : String) : Bool :=
  pre.data.isPrefixOf s.data

/-! The suggest-payload sanitizer `_sanitize_suggest_params`
(telegram_handlers.py lines 89-126), decomposed into its successive
mutations of the `params` dict. -/

/-- The `allowed_keys` set of `_sanitize_suggest_params` (lines 90-94). -/
def allowedKeys : List String :=
  ["name", "categories", "address", "locality", "region", "postcode", "country_code",
   "latitude", "longitude", "parentId", "isPrivatePlace", "tel", "website",
   "email", "facebookUrl", "instagram", "twitter", "hours", "attributes", "dry_run"]

/-- The whitelist of keys as stated by the claim and the spec (§4.3): the
source's `allowed_keys` without `parentId`. Used only to compare the spec's
words with the code. -/
def claimWhitelist : List String :=
  ["name", "categories", "address", "locality", "region", "postcode", "country_code",
   "latitude", "longitude", "isPrivatePlace", "tel", "website",
   "email", "facebookUrl", "instagram", "twitter", "hours", "attributes", "dry_run"]

/-- `v in (None, "", [])`: the empty-value test of line 98. -/
def isEmptyVal : PyVal → Bool
  | PyVal.vnone => true
  | PyVal.vstr s => decide (s = "")
  | PyVal.vlist xs => xs.isEmpty
  | _ => false

/-- `_is_valid_categories` (lines 83-86): comma-separated alphanumeric
tokens, at least one. -/
def isValidCategories (v : PyVal) : Bool :=
  let tokens := ((splitComma (pyStr v)).map pyStrip).filter (fun t => !t.isEmpty)
  !tokens.isEmpty && tokens.all (fun t => !t.isEmpty && t.data.all Char.isAlphanum)

/-- Line 95: keep only whitelisted keys. -/
def sanAllowed (raw : PyDict) : PyDict :=
  raw.filter (fun kv => allowedKeys.contains kv.1)

/-- Line 98: drop `None`/`""`/`[]` values. -/
def sanDropEmpty (p : PyDict) : PyDict :=
  p.filter (fun kv => !isEmptyVal kv.2)

/-- Lines 101-102: pop `categories` when not a valid id list. -/
def sanCategories (p : PyDict) : PyDict :=
  match getVal p "categories" with
  | some v => if isValidCategories v then p else eraseKey p "categories"
  | none => p

/-- Lowercase string serialization of a boolean (lines 106, 108). -/
def boolLowerStr (b : Bool) : String :=
  if b then "true" else "false"

/-- Lines 105-108: convert a boolean value at `key` to its lowercase
string form (non-boolean values are left alone). -/
def sanBoolKey (key : String) (p : PyDict) : PyDict :=
  match getVal p key with
  | some (PyVal.vbool b) => dictSet p key (PyVal.vstr (boolLowerStr b))
  | _ => p

/-- Lines 111-120: coerce the value at `key` with `float(...)`, popping
the key when the coercion raises. -/
def sanFloatKey (key : String) (p : PyDict) : PyDict :=
  match getVal p key with
  | some v =>
    match pyFloat v with
    | some q => dictSet p key (PyVal.vnum q)
    | none => eraseKey p key
  | none => p

/-- Line 124: `str(hours).strip().strip(';')`. -/
def stripHours (s : String) : String :=
  String.mk (trimChars (fun c => c = ';') (trimChars isPySpace s.data))

/-- Lines 123-124: normalize the `hours` value. -/
def sanHours (p : PyDict) : PyDict :=
  match getVal p "hours" with
  | some v => dictSet p "hours" (PyVal.vstr (stripHours (pyStr v)))
  | none => p

/-- `_sanitize_suggest_params` (lines 89-126): the full pipeline. -/
def sanitizeSuggestParams (raw : PyDict) : PyDict :=
  sanHours (sanFloatKey "longitude" (sanFloatKey "latitude"
    (sanBoolKey "dry_run" (sanBoolKey "isPrivatePlace"
      (sanCategories (sanDropEmpty (sanAllowed raw)))))))

/-! The per-chat `context.user_data` dict, with the keys the contribution
wizard and the search flow store (telegram_handlers.py). -/

/-- The dict stored at `user_data['address_fields']`
(address_handler, lines 915-921). -/
structure AddrFields where
  address : String
  locality : String
  region : String
  postcode : String
  country_code : String

/-- The per-chat `context.user_data` record: `none` models an absent key. -/
structure UserData where
  location : Option (ℚ × ℚ) := none
  search_params : PyDict := []
  name : Option String := none
  categories_ids : Option String := none
  categories_names : Option (List String) := none
  address_fields : Option AddrFields := none
  coordinates_source : Option String := none
  coordinates : Option (ℚ × ℚ) := none
  contact : Option PyDict := none
  hours_api : Option String := none
  attributes : Option (List String) := none
  attributes_tokens : Option (List String) := none
  is_private : Option Bool := none

/-! Handler cores. Each function embeds one async handler from
telegram_handlers.py as a pure map from (message text, parsed LLM output,
prior user data) to the updated user data and the returned state. -/

/-- `location_handler` (lines 677-719): stores the shared coordinates,
resets `search_params` to the empty dict, and shows the menu. -/
def locationHandler (u : UserData) (latitude longitude : ℚ) : UserData × Int :=
  ({ u with location := some (latitude, longitude), search_params := [] }, LOCATION_CHOICE)

/-- `query_handler` state update (lines 722-741): merge the parse dump
onto the accumulated `search_params`. The subsequent search call is
embedded separately (`doSearchCore`). -/
def queryHandlerData (u : UserData) (dump : PyDict) : UserData :=
  { u with search_params := queryMergeStep u.search_params dump }

/-- The lowered category lookup table `_CATEGORY_KEY_LOWER_TO_ID`
(line 41): `{k.strip().lower(): v for k, v in table.items()}`; later
entries overwrite earlier ones as in a dict comprehension. -/
def lowerKeyTable (tbl : List (String × String)) : List (String × String) :=
  tbl.foldl (fun d kv => dictSet d (pyLower (pyStrip kv.1)) kv.2) []

/-- The category skip test of `category_handler` (line 819):
`text.lower().startswith("/skip") or text.lower() == "skip"`. -/
def isCategorySkip (text : String) : Bool :=
  strStarts "/skip" (pyLower text) || pyLower text == "skip"

/-- The validation loop of `category_handler` (lines 843-853): split the
parsed names into the unknown ones and the mapped category ids, in input
order. (The canonical display names collected for the summary are not
modelled; they do not affect state or stored ids.) -/
def categoryMapLoop (tbl : List (String × String)) (names : List String) :
    List String × List String :=
  names.foldl
    (fun acc n =>
      match getVal (lowerKeyTable tbl) (pyLower (pyStrip n)) with
      | some cid => (acc.1, acc.2 ++ [cid])
      | none => (acc.1 ++ [n], acc.2))
    ([], [])

/-- Outcome of `category_handler`: next state, updated user data, and the
names echoed back as unknown (empty when none were echoed). -/
structure CatOutcome where
  next : Int
  data : UserData
  unknown : List String

/-- `category_handler` (lines 810-882) on a message whose GPT extraction
returned `parsedNames`. `text` is the stripped message text. -/
def categoryHandlerCore (tbl : List (String × String)) (text : String)
    (parsedNames : List String) (u : UserData) : CatOutcome :=
  if isCategorySkip text then
    ⟨ADDRESS, { u with categories_ids := some "", categories_names := some [] }, []⟩
  else
    let r := categoryMapLoop tbl parsedNames
    if !r.1.isEmpty || r.2.isEmpty then
      ⟨CATEGORY, u, r.1⟩
    else
      ⟨ADDRESS,
        { u with categories_ids := some (joinComma r.2) }, []⟩

/-- The pydantic `AddressParseResult` (models.py lines 27-34). Note the
country-code field is declared as `countryCode`. -/
structure ParsedAddress where
  is_valid : Bool
  address : String
  locality : String
  region : String
  postcode : String
  countryCode : String
  explanation : String

/-- Python attribute access on an `AddressParseResult` instance: the
declared string fields resolve, any other name raises `AttributeError`,
modelled as `Except.error name`. -/
def addrGetAttr (r : ParsedAddress) (n : String) : Except String String :=
  if n = "address" then Except.ok r.address
  else if n = "locality" then Except.ok r.locality
  else if n = "region" then Except.ok r.region
  else if n = "postcode" then Except.ok r.postcode
  else if n = "countryCode" then Except.ok r.countryCode
  else if n = "explanation" then Except.ok r.explanation
  else Except.error n

/-- `address_handler` (lines 885-939). `text` is the raw message text; the
handler strips it, handles skip/invalid by re-prompting, and otherwise
builds `address_fields` by reading `parsed.address`, `.locality`,
`.region`, `.postcode`, `.country_code` — the last of which is not a field
of `AddressParseResult` (the model declares `countryCode`), so the access
raises. An uncaught exception leaves user data and state unchanged. -/
def addressHandlerCore (text : String) (parsed : ParsedAddress) (u : UserData) :
    Except String (Int × UserData) := do
  let t := pyStrip text
  let lowered := pyLower t
  if t = "" || strStarts "/skip" lowered || lowered == "skip" then
    return (ADDRESS, u)
  if !parsed.is_valid then
    return (ADDRESS, u)
  let a ← addrGetAttr parsed "address"
  let lc ← addrGetAttr parsed "locality"
  let rg ← addrGetAttr parsed "region"
  let pc ← addrGetAttr parsed "postcode"
  let cc ← addrGetAttr parsed "country_code"
  return (COORDINATES, { u with address_fields := some ⟨a, lc, rg, pc, cc⟩ })

/-- `coordinates_manual_handler` (lines 993-1066). `parsed` is the JSON
dict returned by the coordinate parser (`parse_coordinates_gpt`). -/
def coordinatesManualHandler (text : String) (parsed : PyDict) (u : UserData) :
    Int × UserData :=
  let t := pyStrip text
  if pyLower t == "/skip" || pyLower t == "skip" then
    (COORDINATES, u)
  else
    let isValid := pyTruthy ((getVal parsed "is_valid").getD PyVal.vnone)
    let lat := (getVal parsed "latitude").getD PyVal.vnone
    let lng := (getVal parsed "longitude").getD PyVal.vnone
    if !isValid || pyIsNone lat || pyIsNone lng then
      (COORDINATES, u)
    else
      match pyFloat lat, pyFloat lng with
      | some la, some ln =>
        if (-90 ≤ la ∧ la ≤ 90) ∧ (-180 ≤ ln ∧ ln ≤ 180) then
          (CONTACT, { u with coordinates_source := some "manual", coordinates := some (la, ln) })
        else
          (COORDINATES, u)
      | _, _ => (COORDINATES, u)

/-- The contact parse result (`parse_contact_info_gpt`, lines 184-208). -/
structure ParsedContact where
  is_valid : Bool
  phone : String
  website : String
  email : String
  facebookUrl : String
  instagram : String
  twitter : String

/-- `contact_handler` (lines 1069-1111): `/skip` stores the empty dict,
an invalid parse re-prompts, a valid parse stores the six contact keys. -/
def contactHandler (text : String) (parsed : ParsedContact) (u : UserData) :
    Int × UserData :=
  let t := pyStrip text
  if pyLower t == "skip" || pyLower t == "/skip" then
    (HOURS, { u with contact := some [] })
  else if !parsed.is_valid then
    (CONTACT, u)
  else
    (HOURS,
      { u with contact := some [("phone", PyVal.vstr parsed.phone),
          ("website", PyVal.vstr parsed.website), ("email", PyVal.vstr parsed.email),
          ("facebookUrl", PyVal.vstr parsed.facebookUrl),
          ("instagram", PyVal.vstr parsed.instagram),
          ("twitter", PyVal.vstr parsed.twitter)] })

/-- Semicolon join used to synthesize the 24/7 hours string. -/
def joinSemi : List String → String
  | [] => ""
  | [s] => s
  | s :: rest => s ++ ";" ++ joinSemi rest

/-- The locally synthesized 24/7 hours value (hours_handler, line 1133):
`";".join([f"{day},0000,2400" for day in range(1, 8)])`. -/
def hours247 : String :=
  joinSemi ((List.range' 1 7).map (fun day => toString day ++ ",0000,2400"))

/-- `hours_handler` (lines 1114-1146). The "Open 24/7" branch synthesizes
the fixed schedule locally; only the "Custom Hours" branch leads to the
state whose handler invokes the hours parser. A non-matching message falls
off the end of the function (Python returns `None`), which
python-telegram-bot treats as "stay in the current state". -/
def hoursHandler (text : String) (u : UserData) : Int × UserData :=
  let choice := pyLower (pyStrip text)
  if strStarts "/skip" choice || choice == "skip" then
    (ATTRIBUTES, { u with hours_api := some "" })
  else if strHasSub "open 24/7" choice then
    (ATTRIBUTES, { u with hours_api := some hours247 })
  else if strHasSub "custom hours" choice then
    (CUSTOM_HOURS, u)
  else
    (HOURS, u)

/-- The `_ATTR_MAP` label→token table (lines 1202-1211). -/
def attrMap : List (String × String) :=
  [("ATM 🏧", "atm"), ("Reservations 📅", "reservation"),
   ("Delivery 🚚", "offers_delivery"), ("Parking 🅿️", "parking"),
   ("Outdoor Seating 🪑", "outdoor_seating"), ("Restroom 🚻", "restroom"),
   ("Credit Cards 💳", "credit_cards"), ("WiFi 📶", "wifi")]

/-- `attributes_handler` (lines 1214-1244): "Done ✅" finalizes the token
list and advances; any other label is appended and the state repeats. -/
def attributesHandler (text : String) (u : UserData) : Int × UserData :=
  if text = "Done ✅" then
    let tokens := (u.attributes.getD []).filterMap (fun label => getVal attrMap label)
    (PRIVATE_PLACE, { u with attributes_tokens := some tokens })
  else
    (ATTRIBUTES, { u with attributes := some ((u.attributes.getD []) ++ [text]) })

/-- `confirm_data` (lines 1302-1347): renders the summary and returns the
CONFIRM state; the user data is not mutated. -/
def confirmData (u : UserData) : Int × UserData :=
  (CONFIRM, u)

/-- `private_place_handler` (lines 1247-1265). -/
def privatePlaceHandler (text : String) (u : UserData) : Int × UserData :=
  let t := pyLower (pyStrip text)
  if t == "/skip" || t == "skip" then
    confirmData { u with is_private := none }
  else if t == "yes" || t == "y" then
    confirmData { u with is_private := some true }
  else if t == "no" || t == "n" then
    confirmData { u with is_private := some false }
  else
    (PRIVATE_PLACE, u)

/-! Confirmation and submission (`handle_confirmation`, lines 1350-1448). -/

/-- The raw suggest parameter map assembled on `confirm_yes`
(handle_confirmation, lines 1359-1397), before sanitization. -/
def buildSuggestParams (u : UserData) : PyDict :=
  let p : PyDict := dictSet [] "name" (PyVal.vstr (u.name.getD ""))
  let p := match u.categories_ids with
    | some s => if s ≠ "" then dictSet p "categories" (PyVal.vstr s) else p
    | none => p
  let p := match u.address_fields with
    | some af =>
      let p := if af.address ≠ "" then dictSet p "address" (PyVal.vstr af.address) else p
      let p := if af.locality ≠ "" then dictSet p "locality" (PyVal.vstr af.locality) else p
      let p := if af.region ≠ "" then dictSet p "region" (PyVal.vstr af.region) else p
      let p := if af.postcode ≠ "" then dictSet p "postcode" (PyVal.vstr af.postcode) else p
      if af.country_code ≠ "" then dictSet p "country_code" (PyVal.vstr af.country_code) else p
    | none => p
  let p := match u.coordinates_source, u.coordinates, u.location with
    | some "manual", some (la, ln), _ =>
      dictSet (dictSet p "latitude" (PyVal.vnum la)) "longitude" (PyVal.vnum ln)
    | some "current", _, some (la, ln) =>
      dictSet (dictSet p "latitude" (PyVal.vnum la)) "longitude" (PyVal.vnum ln)
    | _, _, _ => p
  let p := match u.is_private with
    | some b => dictSet p "isPrivatePlace" (PyVal.vbool b)
    | none => p
  let p := match u.contact with
    | some c =>
      let add := fun (p : PyDict) (src dst : String) =>
        match getVal c src with
        | some v => if pyTruthy v then dictSet p dst v else p
        | none => p
      add (add (add (add (add (add p "phone" "tel") "website" "website")
        "email" "email") "facebookUrl" "facebookUrl") "instagram" "instagram")
        "twitter" "twitter"
    | none => p
  let p := match u.hours_api with
    | some h => if h ≠ "" then dictSet p "hours" (PyVal.vstr h) else p
    | none => p
  let p := match u.attributes_tokens with
    | some ts => if !ts.isEmpty then dictSet p "attributes" (PyVal.vstr (joinComma ts)) else p
    | none => p
  dictSet p "dry_run" (PyVal.vbool false)

/-- Outcome of `handle_confirmation`: the returned state and the payloads
passed to `fsq.suggest_place`, in call order. -/
structure ConfirmOutcome where
  next : Int
  payloads : List PyDict

/-- `handle_confirmation` (lines 1350-1448). On `confirm_yes` the
sanitized draft is submitted exactly once; both the success and the
failure branch of the surrounding try/except reply and fall through to
`return ConversationHandler.END`, so `submitOutcome` affects neither the
returned state nor the number of submissions. On any other callback data
nothing is submitted and the handler replies asking the user to type
`/start` again, then returns `ConversationHandler.END`. -/
def handleConfirmation (cbdata : String) (u : UserData)
    (submitOutcome : Except Unit Unit) : ConfirmOutcome :=
  if cbdata = "confirm_yes" then
    { next := ENDSTATE, payloads := [sanitizeSuggestParams (buildSuggestParams u)] }
  else
    { next := ENDSTATE, payloads := [] }

/-! The search/photo pass of `do_foursquare_search` (lines 398-620). -/

/-- One photo descriptor, holding the values of the four dict lookups
`photo.get("prefix", "")`, `photo.get("suffix", "")`,
`photo.get("width", 300)`, `photo.get("height", 225)` with their source
defaults already applied (lines 528-531). -/
structure FsqPhoto where
  pre : String
  suf : String
  width : ℚ
  height : ℚ

/-- The image URL built from the first photo (lines 532-534):
`prefix + "300x" + target_h + suffix` with
`target_h = int((300 / width) * height) if width and height else 225`. -/
def imageUrlOf (ph : FsqPhoto) : String :=
  let targetH : Int :=
    if pyTruthy (PyVal.vnum ph.width) && pyTruthy (PyVal.vnum ph.height) then
      pyIntTrunc ((300 / ph.width) * ph.height)
    else 225
  ph.pre ++ "300" ++ "x" ++ toString targetH ++ ph.suf

/-- One raw search hit, reduced to the fields the photo pass reads. -/
structure PlaceRec where
  fsq_id : Option String
  name : String

/-- A search hit after the photo pass: the place plus its `image_url`. -/
structure PlaceOut where
  place : PlaceRec
  image_url : Option String

/-- The per-place body of the photo loop (lines 495-552). `lookup` is the
outcome of `fsq.photos(fsq_id)`: `Except.error` models a raised exception
(caught at lines 538-552, degrading to `image_url = None`). A missing or
falsy `fsq_place_id` also degrades to `None` (lines 497-499). -/
def attachPhoto (pl : PlaceRec) (lookup : Except Unit (List FsqPhoto)) : PlaceOut :=
  match pl.fsq_id with
  | none => ⟨pl, none⟩
  | some fid =>
    if fid = "" then ⟨pl, none⟩
    else
      match lookup with
      | Except.error _ => ⟨pl, none⟩
      | Except.ok photos =>
        match photos with
        | [] => ⟨pl, none⟩
        | ph :: _ => ⟨pl, some (imageUrlOf ph)⟩

/-- The whole photo loop: every place is processed, none is dropped. -/
def searchPhotoPass (items : List (PlaceRec × Except Unit (List FsqPhoto))) :
    List PlaceOut :=
  items.map (fun it => attachPhoto it.1 it.2)

/-- The state returned by `do_foursquare_search` after the photo loop
(lines 554-612): QUERY when no results, else REFINE when `ask_refine`,
else QUERY. -/
def searchResultState (resultsEmpty : Bool) (askRefine : Bool) : Int :=
  if resultsEmpty then QUERY else if askRefine then REFINE else QUERY

/-- `do_foursquare_search` from the photo loop on: the annotated results
and the returned state. -/
def doSearchCore (items : List (PlaceRec × Except Unit (List FsqPhoto)))
    (askRefine : Bool) : List PlaceOut × Int :=
  (searchPhotoPass items, searchResultState items.isEmpty askRefine)

/-! The deterministic price-filter handler of the legacy variant
(src/bot.py, `filter_value_handler`, lines 272-284). -/

/-- The `price_range` branch of `filter_value_handler` (bot.py lines
272-284): split the input on commas and strip each token; a single token
sets both `min_price` and `max_price` to it, two or more tokens set the
bounds from the first two. (`str.split` never returns an empty list, so
the `[]` case is unreachable.) -/
def filterValuePriceStep (params : PyDict) (value : String) : PyDict :=
  let tokens := (splitComma value).map pyStrip
  match tokens with
  | [t] => dictSet (dictSet params "min_price" (PyVal.vstr t)) "max_price" (PyVal.vstr t)
  | t0 :: t1 :: _ =>
    dictSet (dictSet params "min_price" (PyVal.vstr t0)) "max_price" (PyVal.vstr t1)
  | [] => params

/-- Modelled from the spec: in the placemaker variant the QUERY-state
search-filter extraction is performed by an external LLM
(`parse_search_query_gpt`, telegram_handlers.py lines 129-152), which is
not code in this repository. The spec's contract "a single user-given
price value sets both bounds" is modelled as the `model_dump()` a
conforming parser returns for such an input: all `FoursquareSearchParams`
fields (models.py lines 4-13) in declaration order, with `min_price` and
`max_price` both equal to the supplied value. -/
def specSinglePriceDump (q : String) (p : ℚ) (searchNow : Bool) (expl : String) : PyDict :=
  [("query", PyVal.vstr q), ("open_now", PyVal.vnone), ("radius", PyVal.vnone),
   ("limit", PyVal.vnone), ("fsq_category_ids", PyVal.vnone),
   ("min_price", PyVal.vnum p), ("max_price", PyVal.vnum p),
   ("search_now", PyVal.vbool searchNow), ("explanation", PyVal.vstr expl)]

/-! Theorems. Shared lemmas about the dict operations come first, then one
theorem per claim (with its witness or counterexample). -/

theorem getVal_dictSet_self {α : Type} (p : List (String × α)) (k : String) (v : α) :
    getVal (dictSet p k v) k = some v := by
  induction p with
  | nil => simp [dictSet, getVal]
  | cons kv rest ih =>
    by_cases h : kv.1 = k
    · simp [dictSet, h, getVal]
    · simp [dictSet, h, getVal, ih]

theorem getVal_dictSet_ne {α : Type} (p : List (String × α)) (k k2 : String) (v : α)
    (h : k ≠ k2) : getVal (dictSet p k v) k2 = getVal p k2 := by
  induction p with
  | nil => simp [dictSet, getVal, h]
  | cons kv rest ih =>
    simp only [dictSet]
    by_cases hk : kv.1 = k
    · have hkv2 : ¬kv.1 = k2 := by rw [hk]; exact h
      rw [if_pos hk]
      simp only [getVal]
      rw [if_neg h, if_neg hkv2]
    · rw [if_neg hk]
      simp only [getVal]
      by_cases hk2 : kv.1 = k2
      · rw [if_pos hk2, if_pos hk2]
      · rw [if_neg hk2, if_neg hk2, ih]

theorem getVal_eraseKey_ne {α : Type} (p : List (String × α)) (k k2 : String)
    (h : k ≠ k2) : getVal (eraseKey p k) k2 = getVal p k2 := by
  induction p with
  | nil => simp [eraseKey]
  | cons kv rest ih =>
    simp only [eraseKey]
    by_cases hk : kv.1 = k
    · have hkv2 : ¬kv.1 = k2 := by rw [hk]; exact h
      rw [if_pos hk]
      simp only [getVal]
      rw [if_neg hkv2]
    · rw [if_neg hk]
      simp only [getVal]
      by_cases hk2 : kv.1 = k2
      · rw [if_pos hk2, if_pos hk2]
      · rw [if_neg hk2, if_neg hk2, ih]

theorem mem_dictSet {α : Type} {p : List (String × α)} {k : String} {v : α}
    {a : String × α} (h : a ∈ dictSet p k v) : a = (k, v) ∨ a ∈ p := by
  induction p with
  | nil => simpa [dictSet] using h
  | cons kv rest ih =>
    by_cases hk : kv.1 = k
    · simp only [dictSet, hk, if_pos rfl] at h
      rcases List.mem_cons.mp h with h1 | h1
      · exact Or.inl h1
      · exact Or.inr (List.mem_cons_of_mem _ h1)
    · simp only [dictSet, hk, if_neg hk] at h
      rcases List.mem_cons.mp h with h1 | h1
      · exact Or.inr (h1 ▸ List.mem_cons_self _ _)
      · rcases ih h1 with h2 | h2
        · exact Or.inl h2
        · exact Or.inr (List.mem_cons_of_mem _ h2)

theorem mem_eraseKey {α : Type} {p : List (String × α)} {k : String}
    {a : String × α} (h : a ∈ eraseKey p k) : a ∈ p := by
  induction p with
  | nil => simp [eraseKey] at h
  | cons kv rest ih =>
    by_cases hk : kv.1 = k
    · simp only [eraseKey, if_pos hk] at h
      exact List.mem_cons_of_mem _ h
    · simp only [eraseKey, if_neg hk] at h
      rcases List.mem_cons.mp h with h1 | h1
      · exact h1 ▸ List.mem_cons_self _ _
      · exact List.mem_cons_of_mem _ (ih h1)

theorem getVal_filter {α : Type} (f : String × α → Bool) (p : List (String × α))
    (k : String) (v : α) (h : getVal p k = some v) (hf : f (k, v) = true) :
    getVal (p.filter f) k = some v := by
  induction p with
  | nil => simp [getVal] at h
  | cons kv rest ih =>
    obtain ⟨k1, v1⟩ := kv
    rw [List.filter_cons]
    by_cases hk : k1 = k
    · subst hk
      simp only [getVal, if_pos rfl] at h
      obtain rfl := Option.some.inj h
      simp [hf, getVal]
    · simp only [getVal, if_neg hk] at h
      cases hkv : f (k1, v1) <;> simp [hkv, getVal, hk, ih h]

theorem foldl_if_filter {α β : Type} (f : β → α → β) (g : α → Bool) (l : List α) (b : β) :
    List.foldl (fun acc x => if g x then f acc x else acc) b l =
      List.foldl f b (l.filter g) := by
  induction l generalizing b with
  | nil => rfl
  | cons x t ih => cases h : g x <;> simp [List.filter_cons, h, ih]

theorem queryMergeStep_eq_specTurnMerge (cur dump : PyDict) :
    queryMergeStep cur dump = specTurnMerge cur dump := by
  unfold queryMergeStep specTurnMerge
  exact foldl_if_filter (fun p kv => dictSet p kv.1 kv.2) keepField dump cur

theorem getVal_foldl_dictSet_of_not_mem (l : List (String × PyVal)) (cur : PyDict)
    (k : String) (h : k ∉ l.map Prod.fst) :
    getVal (l.foldl (fun p kv => dictSet p kv.1 kv.2) cur) k = getVal cur k := by
  induction l generalizing cur with
  | nil => rfl
  | cons kv t ih =>
    simp only [List.map_cons, List.mem_cons, not_or] at h
    rw [List.foldl_cons, ih _ h.2, getVal_dictSet_ne _ _ _ _ (fun he => h.1 he.symm)]

/-- C1: for every sequence of QUERY-state turns, the accumulated
`search_params` equals the left-fold of the spec's merge (restrict each
turn's parse to its non-null/non-empty fields, overwrite them) over the
initial empty map; and a turn leaves every key it does not overwrite (no
kept field with that key) unchanged. -/
theorem query_handler_merge_is_left_fold (turns : List PyDict) :
    runQueryTurns turns = turns.foldl specTurnMerge [] ∧
    ∀ (cur dump : PyDict) (k : String),
      k ∉ (dump.filter keepField).map Prod.fst →
      getVal (queryMergeStep cur dump) k = getVal cur k := by
  constructor
  · have hfun : queryMergeStep = specTurnMerge :=
      funext fun cur => funext fun dump => queryMergeStep_eq_specTurnMerge cur dump
    unfold runQueryTurns
    rw [hfun]
  · intro cur dump k hk
    rw [queryMergeStep_eq_specTurnMerge]
    exact getVal_foldl_dictSet_of_not_mem _ _ _ hk

/-- Witness for C1 at a concrete two-turn run: the fold law at two
concrete parse dumps, and the frame property for a key (`open_now`) whose
new parse value is `None`. -/
theorem query_handler_merge_is_left_fold_witness :
    runQueryTurns
        [[("query", PyVal.vstr "pizza"), ("open_now", PyVal.vnone)],
         [("query", PyVal.vstr "sushi"), ("radius", PyVal.vnum 500)]] =
      [[("query", PyVal.vstr "pizza"), ("open_now", PyVal.vnone)],
       [("query", PyVal.vstr "sushi"), ("radius", PyVal.vnum 500)]].foldl specTurnMerge [] ∧
    getVal (queryMergeStep [("open_now", PyVal.vbool true)]
        [("query", PyVal.vstr "pizza"), ("open_now", PyVal.vnone)]) "open_now" =
      getVal [("open_now", PyVal.vbool true)] "open_now" :=
  ⟨(query_handler_merge_is_left_fold _).1,
   (query_handler_merge_is_left_fold
      [[("query", PyVal.vstr "pizza"), ("open_now", PyVal.vnone)],
       [("query", PyVal.vstr "sushi"), ("radius", PyVal.vnum 500)]]).2
     [("open_now", PyVal.vbool true)]
     [("query", PyVal.vstr "pizza"), ("open_now", PyVal.vnone)] "open_now" (by decide)⟩

/-- C10: every location share resets the accumulated search filters:
afterwards `search_params` is the empty map and `location` holds exactly
the shared coordinates, regardless of previously accumulated filters;
the draft fields are untouched and the handler shows the menu. -/
theorem location_share_resets_filters (u : UserData) (la ln : ℚ) :
    (locationHandler u la ln).1.search_params = [] ∧
    (locationHandler u la ln).1.location = some (la, ln) ∧
    (locationHandler u la ln).2 = LOCATION_CHOICE ∧
    (locationHandler u la ln).1.name = u.name ∧
    (locationHandler u la ln).1.categories_ids = u.categories_ids ∧
    (locationHandler u la ln).1.address_fields = u.address_fields ∧
    (locationHandler u la ln).1.contact = u.contact ∧
    (locationHandler u la ln).1.hours_api = u.hours_api :=
  ⟨rfl, rfl, rfl, rfl, rfl, rfl, rfl, rfl⟩

/-- C6: choosing "Open 24/7" at the HOURS step locally synthesizes the
fixed 7-day all-day hours string and goes straight to ATTRIBUTES (the
hours parser is only reachable through the CUSTOM_HOURS state), `/skip` at
the CONTACT step stores the empty contact record, and the path CONTACT
`/skip` → HOURS "Open 24/7" → ATTRIBUTES "Done ✅" → PRIVATE_PLACE "no"
reaches CONFIRM with exactly those two values in the draft. -/
theorem contribution_247_skip_path (u : UserData) (parsed : ParsedContact) :
    contactHandler "/skip" parsed u = (HOURS, { u with contact := some [] }) ∧
    hoursHandler "Open 24/7" u = (ATTRIBUTES, { u with hours_api := some hours247 }) ∧
    hours247 =
      "1,0000,2400;2,0000,2400;3,0000,2400;4,0000,2400;5,0000,2400;6,0000,2400;7,0000,2400" ∧
    CUSTOM_HOURS ≠ ATTRIBUTES ∧
    (privatePlaceHandler "no" (attributesHandler "Done ✅"
        (hoursHandler "Open 24/7" (contactHandler "/skip" parsed u).2).2).2).1 = CONFIRM ∧
    (privatePlaceHandler "no" (attributesHandler "Done ✅"
        (hoursHandler "Open 24/7" (contactHandler "/skip" parsed u).2).2).2).2.contact =
      some [] ∧
    (privatePlaceHandler "no" (attributesHandler "Done ✅"
        (hoursHandler "Open 24/7" (contactHandler "/skip" parsed u).2).2).2).2.hours_api =
      some "1,0000,2400;2,0000,2400;3,0000,2400;4,0000,2400;5,0000,2400;6,0000,2400;7,0000,2400" :=
  ⟨rfl, rfl, rfl, by decide, rfl, rfl, rfl⟩

/-- C4 counterexample: on the out-of-range manual input "95,200" (parser
reports valid, latitude 95, longitude 200), `coordinates_manual_handler`
returns the COORDINATES choice state (7), not COORDINATES_MANUAL (8) as
the claim states. -/
theorem coordinates_out_of_range_goes_to_choice :
    coordinatesManualHandler "95,200"
        [("is_valid", PyVal.vbool true), ("latitude", PyVal.vnum 95),
         ("longitude", PyVal.vnum 200)] {} = (COORDINATES, {}) ∧
    COORDINATES ≠ COORDINATES_MANUAL :=
  ⟨rfl, by decide⟩

/-- C4 amended: for every manual coordinate input whose parsed latitude is
outside [-90, 90] or longitude outside [-180, 180], the handler never
transitions to CONTACT and never stores the coordinates, even when the
parser reports validity; the rejected input returns the user to the
COORDINATES choice step (state 7), where they may share their location or
re-enter coordinates. -/
theorem coordinates_out_of_range_rejected (text : String) (parsed : PyDict)
    (u : UserData) (la ln : ℚ)
    (hlat : pyFloat ((getVal parsed "latitude").getD PyVal.vnone) = some la)
    (hlng : pyFloat ((getVal parsed "longitude").getD PyVal.vnone) = some ln)
    (hrange : ¬((-90 ≤ la ∧ la ≤ 90) ∧ (-180 ≤ ln ∧ ln ≤ 180))) :
    coordinatesManualHandler text parsed u = (COORDINATES, u) ∧ COORDINATES ≠ CONTACT := by
  refine ⟨?_, by decide⟩
  unfold coordinatesManualHandler
  by_cases h1 : (pyLower (pyStrip text) == "/skip" || pyLower (pyStrip text) == "skip") = true
  · simp [h1]
  · simp only [h1, if_false, Bool.false_eq_true]
    by_cases h2 : (!pyTruthy ((getVal parsed "is_valid").getD PyVal.vnone)
        || pyIsNone ((getVal parsed "latitude").getD PyVal.vnone)
        || pyIsNone ((getVal parsed "longitude").getD PyVal.vnone)) = true
    · simp [h2]
    · simp only [h2, if_false, Bool.false_eq_true]
      rw [hlat, hlng]
      simp [hrange]

/-- C4 witness: the amended theorem applied at the concrete rejected
input "95,200". -/
theorem coordinates_out_of_range_rejected_witness :
    coordinatesManualHandler "95,200"
        [("is_valid", PyVal.vbool true), ("latitude", PyVal.vnum 95),
         ("longitude", PyVal.vnum 200)] {} = (COORDINATES, {}) ∧
    COORDINATES ≠ CONTACT :=
  coordinates_out_of_range_rejected "95,200"
    [("is_valid", PyVal.vbool true), ("latitude", PyVal.vnum 95),
     ("longitude", PyVal.vnum 200)] {} 95 200 (by decide) (by decide) (by decide)

/-- C5: the code contradicts the claim's (and the spec's) intended
behavior. On every valid parse, `address_handler` reads
`parsed.country_code`, but the pydantic model `AddressParseResult` declares
the field as `countryCode` (models.py line 33), so the access raises
`AttributeError`: the handler neither stores `address_fields` nor advances
to COORDINATES. An invalid parse still re-prompts normally. Evaluated here
at a concrete valid parse and a concrete invalid one. -/
theorem address_handler_country_code_attribute_bug :
    addressHandlerCore "221B Baker Street, London NW1 6XE, GB"
        ⟨true, "221B Baker Street", "London", "", "NW1 6XE", "GB", ""⟩ {} =
      Except.error "country_code" ∧
    addressHandlerCore "not an address at all"
        ⟨false, "", "", "", "", "", "not an address"⟩ {} =
      Except.ok (ADDRESS, {}) :=
  ⟨rfl, rfl⟩

/-- C7 counterexample: on "confirm_no" the handler performs no submission
but returns `ConversationHandler.END` (-1): the conversation terminates
and is not restarted at its entry state — the user must type /start
again. -/
theorem confirm_no_ends_session :
    handleConfirmation "confirm_no" {} (Except.ok ()) =
      { next := ENDSTATE, payloads := [] } ∧
    ENDSTATE ≠ LOCATION :=
  ⟨rfl, by decide⟩

/-- C7 amended: in CONFIRM, "confirm_yes" submits the sanitized draft
exactly once and ends the session (regardless of whether the submission
call succeeds or raises), while any other callback data (in particular
"confirm_no") performs no submission, replies asking the user to type
/start again, and likewise ends the session. -/
theorem confirm_buttons_submission (u : UserData) (cb : String)
    (outc : Except Unit Unit) :
    (cb = "confirm_yes" →
      handleConfirmation cb u outc =
        { next := ENDSTATE,
          payloads := [sanitizeSuggestParams (buildSuggestParams u)] }) ∧
    (cb ≠ "confirm_yes" →
      handleConfirmation cb u outc = { next := ENDSTATE, payloads := [] }) := by
  constructor
  · intro h
    simp [handleConfirmation, h]
  · intro h
    simp [handleConfirmation, h]

/-- C7 witness: both buttons at a concrete draft, and for "confirm_yes"
also under a failing submission call. -/
theorem confirm_buttons_submission_witness :
    handleConfirmation "confirm_yes" {} (Except.error ()) =
      { next := ENDSTATE,
        payloads := [sanitizeSuggestParams (buildSuggestParams {})] } ∧
    handleConfirmation "confirm_no" {} (Except.ok ()) =
      { next := ENDSTATE, payloads := [] } :=
  ⟨(confirm_buttons_submission {} "confirm_yes" (Except.error ())).1 rfl,
   (confirm_buttons_submission {} "confirm_no" (Except.ok ())).2 (by decide)⟩

theorem categoryMapLoop_go (tbl : List (String × String)) (names : List String)
    (acc : List String × List String) :
    names.foldl
      (fun acc n =>
        match getVal (lowerKeyTable tbl) (pyLower (pyStrip n)) with
        | some cid => (acc.1, acc.2 ++ [cid])
        | none => (acc.1 ++ [n], acc.2)) acc =
    (acc.1 ++ names.filter
        (fun n => (getVal (lowerKeyTable tbl) (pyLower (pyStrip n))).isNone),
     acc.2 ++ names.filterMap
        (fun n => getVal (lowerKeyTable tbl) (pyLower (pyStrip n)))) := by
  induction names generalizing acc with
  | nil => simp
  | cons n t ih =>
    rw [List.foldl_cons]
    cases h : getVal (lowerKeyTable tbl) (pyLower (pyStrip n)) with
    | some cid =>
      simp only [h]
      rw [ih]
      simp [List.filter_cons, List.filterMap_cons, h]
    | none =>
      simp only [h]
      rw [ih]
      simp [List.filter_cons, List.filterMap_cons, h]

theorem categoryMapLoop_spec (tbl : List (String × String)) (names : List String) :
    categoryMapLoop tbl names =
      (names.filter
        (fun n => (getVal (lowerKeyTable tbl) (pyLower (pyStrip n))).isNone),
       names.filterMap
        (fun n => getVal (lowerKeyTable tbl) (pyLower (pyStrip n)))) := by
  have h := categoryMapLoop_go tbl names ([], [])
  simpa [categoryMapLoop] using h

/-- C3: on a non-skip CATEGORY input, each extracted name is independently
looked up (case-insensitively, after stripping) in the static
name-to-id table. If every name maps and at least one was extracted, the
step stores the comma-joined mapped ids and advances to ADDRESS; if at
least one name is unmapped, or none maps, the step stays in CATEGORY
with the user data unchanged and echoes exactly the unmapped names —
there is no partial acceptance. -/
theorem category_no_partial_acceptance (tbl : List (String × String)) (text : String)
    (parsedNames : List String) (u : UserData)
    (hskip : isCategorySkip text = false) :
    ((∀ n ∈ parsedNames,
        (getVal (lowerKeyTable tbl) (pyLower (pyStrip n))).isSome) → parsedNames ≠ [] →
      (categoryHandlerCore tbl text parsedNames u).next = ADDRESS ∧
      (categoryHandlerCore tbl text parsedNames u).data.categories_ids =
        some (joinComma (parsedNames.filterMap
          (fun n => getVal (lowerKeyTable tbl) (pyLower (pyStrip n))))) ∧
      (categoryHandlerCore tbl text parsedNames u).unknown = []) ∧
    (((∃ n ∈ parsedNames,
        (getVal (lowerKeyTable tbl) (pyLower (pyStrip n))).isNone) ∨ parsedNames = []) →
      (categoryHandlerCore tbl text parsedNames u).next = CATEGORY ∧
      (categoryHandlerCore tbl text parsedNames u).data = u ∧
      (categoryHandlerCore tbl text parsedNames u).unknown =
        parsedNames.filter
          (fun n => (getVal (lowerKeyTable tbl) (pyLower (pyStrip n))).isNone)) := by
  have hcore : categoryHandlerCore tbl text parsedNames u =
      (let r := categoryMapLoop tbl parsedNames
       if !r.1.isEmpty || r.2.isEmpty then ⟨CATEGORY, u, r.1⟩
       else ⟨ADDRESS, { u with categories_ids := some (joinComma r.2) }, []⟩) := by
    unfold categoryHandlerCore
    rw [hskip]
    simp
  rw [hcore, categoryMapLoop_spec]
  constructor
  · intro hall hne
    have hfil : parsedNames.filter
        (fun n => (getVal (lowerKeyTable tbl) (pyLower (pyStrip n))).isNone) = [] := by
      rw [List.filter_eq_nil_iff]
      intro a ha
      have := hall a ha
      cases hv : getVal (lowerKeyTable tbl) (pyLower (pyStrip a)) with
      | none => rw [hv] at this; simp at this
      | some c => simp [hv]
    have hmapne : parsedNames.filterMap
        (fun n => getVal (lowerKeyTable tbl) (pyLower (pyStrip n))) ≠ [] := by
      cases parsedNames with
      | nil => exact absurd rfl hne
      | cons n0 t =>
        have h0 := hall n0 (List.mem_cons_self _ _)
        obtain ⟨c0, hc0⟩ := Option.isSome_iff_exists.mp h0
        simp [List.filterMap_cons, hc0]
    simp [hfil, hmapne, List.isEmpty_iff]
  · intro hbad
    rcases hbad with ⟨n0, hn0, hnone⟩ | hnil
    · have hfil : parsedNames.filter
          (fun n => (getVal (lowerKeyTable tbl) (pyLower (pyStrip n))).isNone) ≠ [] := by
        intro hf
        have := (List.filter_eq_nil_iff.mp hf) n0 hn0
        simp [hnone] at this
      have hie : (parsedNames.filter
          (fun n => (getVal (lowerKeyTable tbl) (pyLower (pyStrip n))).isNone)).isEmpty
          = false := by
        cases hh : parsedNames.filter
            (fun n => (getVal (lowerKeyTable tbl) (pyLower (pyStrip n))).isNone) with
        | nil => exact absurd hh hfil
        | cons a t => rfl
      simp [hie]
    · subst hnil
      simp

/-- C3 witness: the theorem at a one-entry table, once on a fully mapped
input ("arcade") and once on an input with the unmapped name "zzz". -/
theorem category_no_partial_acceptance_witness :
    ((categoryHandlerCore [("Arcade", "id1")] "arcade" ["arcade"] {}).next = ADDRESS ∧
     (categoryHandlerCore [("Arcade", "id1")] "arcade" ["arcade"] {}).data.categories_ids =
       some (joinComma (["arcade"].filterMap
         (fun n => getVal (lowerKeyTable [("Arcade", "id1")]) (pyLower (pyStrip n))))) ∧
     (categoryHandlerCore [("Arcade", "id1")] "arcade" ["arcade"] {}).unknown = []) ∧
    ((categoryHandlerCore [("Arcade", "id1")] "arcade, zzz" ["arcade", "zzz"] {}).next
        = CATEGORY ∧
     (categoryHandlerCore [("Arcade", "id1")] "arcade, zzz" ["arcade", "zzz"] {}).data
        = ({} : UserData) ∧
     (categoryHandlerCore [("Arcade", "id1")] "arcade, zzz" ["arcade", "zzz"] {}).unknown =
       ["arcade", "zzz"].filter
         (fun n => (getVal (lowerKeyTable [("Arcade", "id1")]) (pyLower (pyStrip n))).isNone)) :=
  ⟨(category_no_partial_acceptance [("Arcade", "id1")] "arcade" ["arcade"] {}
      (by decide)).1 (by decide) (by decide),
   (category_no_partial_acceptance [("Arcade", "id1")] "arcade, zzz" ["arcade", "zzz"] {}
      (by decide)).2 (Or.inl ⟨"zzz", by decide, by decide⟩)⟩

/-- C9: a photo lookup that raises (or returns no photos) sets the failing
place's `image_url` to `None` and the search continues: no place is
dropped (the output has one entry per result, each produced from its own
place), a lookup failure never aborts the pass, and the returned
conversation state does not depend on the photo outcomes (only on whether
the result list is empty and on `ask_refine`). -/
theorem photo_lookup_failure_degrades
    (items : List (PlaceRec × Except Unit (List FsqPhoto))) (askRefine : Bool) :
    (doSearchCore items askRefine).1.length = items.length ∧
    (∀ it ∈ items, attachPhoto it.1 it.2 ∈ (doSearchCore items askRefine).1) ∧
    (∀ (pl : PlaceRec) (e : Unit), attachPhoto pl (Except.error e) = ⟨pl, none⟩) ∧
    (∀ items2 : List (PlaceRec × Except Unit (List FsqPhoto)),
      items2.map Prod.fst = items.map Prod.fst →
      (doSearchCore items2 askRefine).2 = (doSearchCore items askRefine).2) := by
  refine ⟨?_, ?_, ?_, ?_⟩
  · simp [doSearchCore, searchPhotoPass]
  · intro it hit
    exact List.mem_map_of_mem _ hit
  · intro pl e
    unfold attachPhoto
    cases hid : pl.fsq_id with
    | none => rfl
    | some fid =>
      by_cases hfid : fid = ""
      · simp [hfid]
      · simp [hfid]
  · intro items2 hmap
    have hlen : items2.length = items.length := by
      have := congrArg List.length hmap
      simpa using this
    simp [doSearchCore, searchResultState, List.isEmpty_iff, ← List.length_eq_zero, hlen]

/-- C9 witness: the theorem at a concrete singleton result whose photo
lookup raises, against the same place with a successful empty lookup. -/
theorem photo_lookup_failure_degrades_witness :
    attachPhoto ⟨some "abc123", "Cafe"⟩ (Except.error ()) =
      ⟨⟨some "abc123", "Cafe"⟩, none⟩ ∧
    (doSearchCore [(⟨some "abc123", "Cafe"⟩, Except.error ())] true).2 =
      (doSearchCore [(⟨some "abc123", "Cafe"⟩, Except.ok [])] true).2 :=
  ⟨(photo_lookup_failure_degrades [] true).2.2.1 ⟨some "abc123", "Cafe"⟩ (),
   (photo_lookup_failure_degrades [(⟨some "abc123", "Cafe"⟩, Except.ok [])] true).2.2.2
     [(⟨some "abc123", "Cafe"⟩, Except.error ())] rfl⟩

theorem not_mem_filter_map_fst {α : Type} (l : List (String × α)) (f : String × α → Bool)
    (k : String) (h : k ∉ l.map Prod.fst) : k ∉ (l.filter f).map Prod.fst := by
  intro hc
  obtain ⟨a, ha, rfl⟩ := List.mem_map.mp hc
  exact h (List.mem_map_of_mem _ (List.mem_of_mem_filter ha))

theorem queryMergeStep_frame (cur dump : PyDict) (k : String)
    (h : k ∉ (dump.filter keepField).map Prod.fst) :
    getVal (queryMergeStep cur dump) k = getVal cur k := by
  rw [queryMergeStep_eq_specTurnMerge]
  exact getVal_foldl_dictSet_of_not_mem _ _ _ h

theorem getVal_queryMergeStep_append (cur : PyDict) (l1 l2 : List (String × PyVal))
    (k : String) (v : PyVal) (hkeep : keepField (k, v) = true)
    (h2 : k ∉ (l2.filter keepField).map Prod.fst) :
    getVal (queryMergeStep cur (l1 ++ (k, v) :: l2)) k = some v := by
  unfold queryMergeStep
  rw [List.foldl_append, List.foldl_cons, if_pos hkeep]
  show getVal (queryMergeStep (dictSet (queryMergeStep cur l1) k v) l2) k = some v
  rw [queryMergeStep_frame _ _ _ h2, getVal_dictSet_self]

theorem splitCommaAux_no_comma (l acc : List Char) (h : ',' ∉ l) :
    splitCommaAux l acc = [acc.reverse ++ l] := by
  induction l generalizing acc with
  | nil => simp [splitCommaAux]
  | cons c t ih =>
    simp only [List.mem_cons, not_or] at h
    rw [splitCommaAux, if_neg (fun hc => h.1 hc.symm), ih _ h.2]
    simp

theorem splitComma_no_comma (s : String) (h : ',' ∉ s.data) : splitComma s = [s] := by
  unfold splitComma
  rw [splitCommaAux_no_comma _ _ h]
  rfl

/-- C8: a single user-supplied price value p always ends up as both
bounds. Conjunct 1 (spec-modelled parser contract, placemaker variant):
merging the dump a conforming parser returns for a single price p onto any
accumulated params stores `min_price = max_price = p`. Conjunct 2
(deterministic legacy implementation, bot.py lines 272-284): a
comma-free price input sets both `min_price` and `max_price` to the
stripped token. -/
theorem single_price_sets_both_bounds (cur params : PyDict) (q : String) (p : ℚ)
    (sn : Bool) (e : String) (value : String) (hnc : ',' ∉ value.data) :
    (getVal (queryMergeStep cur (specSinglePriceDump q p sn e)) "min_price"
        = some (PyVal.vnum p) ∧
     getVal (queryMergeStep cur (specSinglePriceDump q p sn e)) "max_price"
        = some (PyVal.vnum p)) ∧
    (getVal (filterValuePriceStep params value) "min_price"
        = some (PyVal.vstr (pyStrip value)) ∧
     getVal (filterValuePriceStep params value) "max_price"
        = some (PyVal.vstr (pyStrip value))) := by
  constructor
  · constructor
    · have hsplit : specSinglePriceDump q p sn e =
          [("query", PyVal.vstr q), ("open_now", PyVal.vnone), ("radius", PyVal.vnone),
           ("limit", PyVal.vnone), ("fsq_category_ids", PyVal.vnone)] ++
          ("min_price", PyVal.vnum p) ::
          [("max_price", PyVal.vnum p), ("search_now", PyVal.vbool sn),
           ("explanation", PyVal.vstr e)] := rfl
      rw [hsplit]
      apply getVal_queryMergeStep_append
      · rfl
      · apply not_mem_filter_map_fst
        simp only [List.map_cons, List.map_nil]
        decide
    · have hsplit : specSinglePriceDump q p sn e =
          [("query", PyVal.vstr q), ("open_now", PyVal.vnone), ("radius", PyVal.vnone),
           ("limit", PyVal.vnone), ("fsq_category_ids", PyVal.vnone),
           ("min_price", PyVal.vnum p)] ++
          ("max_price", PyVal.vnum p) ::
          [("search_now", PyVal.vbool sn), ("explanation", PyVal.vstr e)] := rfl
      rw [hsplit]
      apply getVal_queryMergeStep_append
      · rfl
      · apply not_mem_filter_map_fst
        simp only [List.map_cons, List.map_nil]
        decide
  · have hone : (splitComma value).map pyStrip = [pyStrip value] := by
      rw [splitComma_no_comma _ hnc]
      rfl
    constructor
    · show getVal (filterValuePriceStep params value) "min_price" = _
      unfold filterValuePriceStep
      rw [hone]
      rw [getVal_dictSet_ne _ _ _ _ (by decide), getVal_dictSet_self]
    · unfold filterValuePriceStep
      rw [hone, getVal_dictSet_self]

/-- C8 witness: the theorem at the concrete single price 2 (spec-modelled
parse) and the concrete legacy input "2". -/
theorem single_price_sets_both_bounds_witness :
    (getVal (queryMergeStep [] (specSinglePriceDump "pizza" 2 false "")) "min_price"
        = some (PyVal.vnum 2) ∧
     getVal (queryMergeStep [] (specSinglePriceDump "pizza" 2 false "")) "max_price"
        = some (PyVal.vnum 2)) ∧
    (getVal (filterValuePriceStep [] "2") "min_price"
        = some (PyVal.vstr (pyStrip "2")) ∧
     getVal (filterValuePriceStep [] "2") "max_price"
        = some (PyVal.vstr (pyStrip "2"))) :=
  single_price_sets_both_bounds [] [] "pizza" 2 false "" "2" (by decide)

theorem mem_sanAllowed {raw : PyDict} {kv : String × PyVal} (h : kv ∈ sanAllowed raw) :
    kv.1 ∈ allowedKeys ∧ kv ∈ raw := by
  have h2 := List.mem_filter.mp h
  refine ⟨?_, h2.1⟩
  have h3 := h2.2
  simpa using h3

theorem mem_sanDropEmpty {p : PyDict} {kv : String × PyVal} (h : kv ∈ sanDropEmpty p) :
    kv ∈ p ∧ isEmptyVal kv.2 = false := by
  have h2 := List.mem_filter.mp h
  exact ⟨h2.1, by simpa using h2.2⟩

theorem mem_sanCategories {p : PyDict} {kv : String × PyVal}
    (h : kv ∈ sanCategories p) : kv ∈ p := by
  unfold sanCategories at h
  split at h
  · split at h
    · exact h
    · exact mem_eraseKey h
  · exact h

theorem mem_sanBoolKey {p : PyDict} {key : String} {kv : String × PyVal}
    (h : kv ∈ sanBoolKey key p) :
    (kv.1 = key ∧ ∃ b, kv.2 = PyVal.vstr (boolLowerStr b)) ∨ kv ∈ p := by
  unfold sanBoolKey at h
  split at h
  case _ b heq =>
    rcases mem_dictSet h with h1 | h1
    · exact Or.inl ⟨by rw [h1], b, by rw [h1]⟩
    · exact Or.inr h1
  case _ => exact Or.inr h

theorem mem_sanFloatKey {p : PyDict} {key : String} {kv : String × PyVal}
    (h : kv ∈ sanFloatKey key p) :
    (kv.1 = key ∧ ∃ q : ℚ, kv.2 = PyVal.vnum q) ∨ kv ∈ p := by
  unfold sanFloatKey at h
  split at h
  case _ v heq =>
    split at h
    case _ q hq =>
      rcases mem_dictSet h with h1 | h1
      · exact Or.inl ⟨by rw [h1], q, by rw [h1]⟩
      · exact Or.inr h1
    case _ => exact Or.inr (mem_eraseKey h)
  case _ => exact Or.inr h

theorem mem_sanHours {p : PyDict} {kv : String × PyVal}
    (h : kv ∈ sanHours p) :
    (kv.1 = "hours" ∧ ∃ s, kv.2 = PyVal.vstr s) ∨ kv ∈ p := by
  unfold sanHours at h
  split at h
  case _ v heq =>
    rcases mem_dictSet h with h1 | h1
    · exact Or.inl ⟨by rw [h1], stripHours (pyStr v), by rw [h1]⟩
    · exact Or.inr h1
  case _ => exact Or.inr h

theorem getVal_sanAllowed {raw : PyDict} {k : String} {v : PyVal}
    (h : getVal raw k = some v) (hk : allowedKeys.contains k = true) :
    getVal (sanAllowed raw) k = some v :=
  getVal_filter _ _ _ _ h hk

theorem getVal_sanDropEmpty {p : PyDict} {k : String} {v : PyVal}
    (h : getVal p k = some v) (hv : isEmptyVal v = false) :
    getVal (sanDropEmpty p) k = some v :=
  getVal_filter _ _ _ _ h (by rw [hv]; rfl)

theorem getVal_sanCategories_ne {p : PyDict} {k : String} (hk : k ≠ "categories") :
    getVal (sanCategories p) k = getVal p k := by
  unfold sanCategories
  split
  · split
    · rfl
    · exact getVal_eraseKey_ne _ _ _ (fun he => hk he.symm)
  · rfl

theorem getVal_sanBoolKey_ne {p : PyDict} {key k : String} (hk : k ≠ key) :
    getVal (sanBoolKey key p) k = getVal p k := by
  unfold sanBoolKey
  split
  · exact getVal_dictSet_ne _ _ _ _ (fun he => hk he.symm)
  · rfl

theorem getVal_sanBoolKey_self {p : PyDict} {key : String} {b : Bool}
    (h : getVal p key = some (PyVal.vbool b)) :
    getVal (sanBoolKey key p) key = some (PyVal.vstr (boolLowerStr b)) := by
  unfold sanBoolKey
  rw [h]
  exact getVal_dictSet_self _ _ _

theorem getVal_sanFloatKey_ne {p : PyDict} {key k : String} (hk : k ≠ key) :
    getVal (sanFloatKey key p) k = getVal p k := by
  unfold sanFloatKey
  split
  · split
    · exact getVal_dictSet_ne _ _ _ _ (fun he => hk he.symm)
    · exact getVal_eraseKey_ne _ _ _ (fun he => hk he.symm)
  · rfl

theorem getVal_sanHours_ne {p : PyDict} {k : String} (hk : k ≠ "hours") :
    getVal (sanHours p) k = getVal p k := by
  unfold sanHours
  split
  · exact getVal_dictSet_ne _ _ _ _ (fun he => hk he.symm)
  · rfl

/-- C2 counterexample: the code's whitelist additionally contains
`parentId` (telegram_handlers.py line 92), and the `hours` normalization
can leave an empty-string value. On the raw map
`{parentId: "abc", hours: ";"}` the sanitized payload keeps `parentId`
(a key outside the claim's whitelist) and maps `hours` to `""`. -/
theorem sanitize_claim_whitelist_fails :
    sanitizeSuggestParams [("parentId", PyVal.vstr "abc"), ("hours", PyVal.vstr ";")] =
      [("parentId", PyVal.vstr "abc"), ("hours", PyVal.vstr "")] ∧
    "parentId" ∉ claimWhitelist :=
  ⟨rfl, by decide⟩

/-- C2 amended: for every raw draft parameter map, the sanitized payload
contains only keys from the source's whitelist (the claim's nineteen keys
plus `parentId`); no surviving value is `None`, the empty string, or the
empty list, except that the `hours` value may be the empty string (when
stripping whitespace and semicolons empties it); and every boolean value
of `isPrivatePlace` and `dry_run` is serialized as the lowercase string
"true"/"false". -/
theorem sanitize_whitelist_amended (raw : PyDict) :
    (∀ kv ∈ sanitizeSuggestParams raw, kv.1 ∈ allowedKeys) ∧
    (∀ kv ∈ sanitizeSuggestParams raw, isEmptyVal kv.2 = true →
      kv.1 = "hours" ∧ kv.2 = PyVal.vstr "") ∧
    (∀ b : Bool, getVal raw "isPrivatePlace" = some (PyVal.vbool b) →
      getVal (sanitizeSuggestParams raw) "isPrivatePlace"
        = some (PyVal.vstr (boolLowerStr b))) ∧
    (∀ b : Bool, getVal raw "dry_run" = some (PyVal.vbool b) →
      getVal (sanitizeSuggestParams raw) "dry_run"
        = some (PyVal.vstr (boolLowerStr b))) := by
  refine ⟨?_, ?_, ?_, ?_⟩
  · intro kv h
    unfold sanitizeSuggestParams at h
    rcases mem_sanHours h with ⟨hk, _⟩ | h
    · rw [hk]; decide
    rcases mem_sanFloatKey h with ⟨hk, _⟩ | h
    · rw [hk]; decide
    rcases mem_sanFloatKey h with ⟨hk, _⟩ | h
    · rw [hk]; decide
    rcases mem_sanBoolKey h with ⟨hk, _⟩ | h
    · rw [hk]; decide
    rcases mem_sanBoolKey h with ⟨hk, _⟩ | h
    · rw [hk]; decide
    exact (mem_sanAllowed (mem_sanDropEmpty (mem_sanCategories h)).1).1
  · intro kv h he
    unfold sanitizeSuggestParams at h
    rcases mem_sanHours h with ⟨hk, s, hv⟩ | h
    · refine ⟨hk, ?_⟩
      rw [hv] at he ⊢
      simp only [isEmptyVal, decide_eq_true_eq] at he
      rw [he]
    rcases mem_sanFloatKey h with ⟨hk, q, hv⟩ | h
    · rw [hv] at he; simp [isEmptyVal] at he
    rcases mem_sanFloatKey h with ⟨hk, q, hv⟩ | h
    · rw [hv] at he; simp [isEmptyVal] at he
    rcases mem_sanBoolKey h with ⟨hk, b, hv⟩ | h
    · rw [hv] at he; cases b <;> simp [isEmptyVal, boolLowerStr] at he
    rcases mem_sanBoolKey h with ⟨hk, b, hv⟩ | h
    · rw [hv] at he; cases b <;> simp [isEmptyVal, boolLowerStr] at he
    have := (mem_sanDropEmpty (mem_sanCategories h)).2
    rw [he] at this
    cases this
  · intro b h
    unfold sanitizeSuggestParams
    rw [@getVal_sanHours_ne _ "isPrivatePlace" (by decide),
      @getVal_sanFloatKey_ne _ "longitude" "isPrivatePlace" (by decide),
      @getVal_sanFloatKey_ne _ "latitude" "isPrivatePlace" (by decide),
      @getVal_sanBoolKey_ne _ "dry_run" "isPrivatePlace" (by decide)]
    apply getVal_sanBoolKey_self
    rw [@getVal_sanCategories_ne _ "isPrivatePlace" (by decide)]
    exact getVal_sanDropEmpty (getVal_sanAllowed h (by decide)) rfl
  · intro b h
    unfold sanitizeSuggestParams
    rw [@getVal_sanHours_ne _ "dry_run" (by decide),
      @getVal_sanFloatKey_ne _ "longitude" "dry_run" (by decide),
      @getVal_sanFloatKey_ne _ "latitude" "dry_run" (by decide)]
    apply getVal_sanBoolKey_self
    rw [@getVal_sanBoolKey_ne _ "isPrivatePlace" "dry_run" (by decide),
      @getVal_sanCategories_ne _ "dry_run" (by decide)]
    exact getVal_sanDropEmpty (getVal_sanAllowed h (by decide)) rfl

/-- C2 witness: the amended theorem at two concrete raw maps — one with a
kept key, both booleans and a dropped empty `tel`, and one whose `hours`
value strips to the empty string. -/
theorem sanitize_whitelist_amended_witness :
    ("name", PyVal.vstr "Cafe").1 ∈ allowedKeys ∧
    (("hours", PyVal.vstr "").1 = "hours" ∧
      ("hours", PyVal.vstr "").2 = PyVal.vstr "") ∧
    getVal (sanitizeSuggestParams
        [("name", PyVal.vstr "Cafe"), ("isPrivatePlace", PyVal.vbool true),
         ("dry_run", PyVal.vbool false), ("tel", PyVal.vstr "")]) "isPrivatePlace"
      = some (PyVal.vstr (boolLowerStr true)) ∧
    getVal (sanitizeSuggestParams
        [("name", PyVal.vstr "Cafe"), ("isPrivatePlace", PyVal.vbool true),
         ("dry_run", PyVal.vbool false), ("tel", PyVal.vstr "")]) "dry_run"
      = some (PyVal.vstr (boolLowerStr false)) :=
  ⟨(sanitize_whitelist_amended
      [("name", PyVal.vstr "Cafe"), ("isPrivatePlace", PyVal.vbool true),
       ("dry_run", PyVal.vbool false), ("tel", PyVal.vstr "")]).1
      ("name", PyVal.vstr "Cafe")
      (by rw [show sanitizeSuggestParams
            [("name", PyVal.vstr "Cafe"), ("isPrivatePlace", PyVal.vbool true),
             ("dry_run", PyVal.vbool false), ("tel", PyVal.vstr "")] =
          [("name", PyVal.vstr "Cafe"), ("isPrivatePlace", PyVal.vstr "true"),
           ("dry_run", PyVal.vstr "false")] from rfl]
          exact List.mem_cons_self _ _),
   (sanitize_whitelist_amended [("hours", PyVal.vstr " ; ")]).2.1
      ("hours", PyVal.vstr "")
      (by rw [show sanitizeSuggestParams [("hours", PyVal.vstr " ; ")] =
          [("hours", PyVal.vstr "")] from rfl]
          exact List.mem_cons_self _ _) rfl,
   (sanitize_whitelist_amended
      [("name", PyVal.vstr "Cafe"), ("isPrivatePlace", PyVal.vbool true),
       ("dry_run", PyVal.vbool false), ("tel", PyVal.vstr "")]).2.2.1 true rfl,
   (sanitize_whitelist_amended
      [("name", PyVal.vstr "Cafe"), ("isPrivatePlace", PyVal.vbool true),
       ("dry_run", PyVal.vbool false), ("tel", PyVal.vstr "")]).2.2.2 false rfl⟩
